import Mathlib

/-!
# Verification of the extensions part (search / virtualized list / highlight overlay)

Shallow embedding of src/vs/workbench/parts/extensions/electron-browser/extensionsPart.ts.

The embedding models the component as a pure state record (`PartState`) and one
Lean function per source operation (the `highlight` setter, `onSelectionChange`,
`triggerSearch`, `doSearch`, `setVisible(true)`, `dispose`, the transitionend
handler, the root click handler, and settlement of the asynchronous content
fetch).  Asynchronous work (the debounce timer, the gallery query, the
supplementary-content fetch chain) is modelled as explicit interleaved events
(`PartEvent`) acting on the state, matching the single-threaded cooperative
scheduling model of the program.

Collaborator code of the repository that is not under src/ (ThrottledDelayer,
mapPager/PagedModel, getExtensionId, the IExtension shape) is modelled from the
spec; each such definition carries a doc comment starting with
"Modelled from the spec:".
-/

/-- Modelled from the spec: the version record of an extension's gallery data
(IExtension comes from ../common/extensions, not under src/).  Fields are
exactly the ones the source file reads: versions[0].iconUrl (line 122),
versions[0].readmeUrl (line 305) and versions[0].downloadHeaders (line 302). -/
structure IExtensionVersion where
  iconUrl : String
  readmeUrl : String
  downloadHeaders : List (String × String)
deriving DecidableEq

/-- Modelled from the spec: gallery metadata of an extension (publisher display
name, line 116; the version sequence, lines 117 and 301). -/
structure IGalleryInformation where
  publisherDisplayName : String
  versions : List IExtensionVersion
deriving DecidableEq

/-- Modelled from the spec: IExtension (declared in ../common/extensions, not
under src/).  Fields are the ones the source file reads, plus the name used by
getExtensionId. -/
structure IExtension where
  name : String
  publisher : String
  displayName : String
  version : String
  description : String
  galleryInformation : Option IGalleryInformation
deriving DecidableEq

/-- lines 43-47: the install-state classification of an entry. -/
inductive ExtensionState where
  | Uninstalled
  | Installed
  | Outdated
deriving DecidableEq

/-- lines 49-52: a search result paired with its install-state classification. -/
structure IExtensionEntry where
  extension : IExtension
  state : ExtensionState
deriving DecidableEq

/-- Modelled from the spec: getExtensionId (from ../common/extensionsUtil, not
under src/): the identity of an extension is derived from publisher plus name
(spec section 3). -/
def getExtensionId (e : IExtension) : String :=
  e.publisher ++ "." ++ e.name

/-- Modelled from the spec: the pager shape of vs/base/common/paging (not under
src/), section 4.2: an already-fetched first page, a total count, a page size
and an on-demand page loader. -/
structure Pager (α : Type) where
  firstPage : List α
  total : Nat
  pageSize : Nat
  getPage : Nat → List α

/-- Modelled from the spec: mapPager from vs/base/common/paging (not under
src/): maps every entry of every page (the first page and every page the loader
returns) through f. -/
def mapPager {α β : Type} (p : Pager α) (f : α → β) : Pager β :=
  { firstPage := p.firstPage.map f
    total := p.total
    pageSize := p.pageSize
    getPage := fun i => (p.getPage i).map f }

/-- lines 139-144: the shared empty model (total 0, pageSize 0, empty first
page).  The source passes getPage: null; it is never invoked for a total of 0,
modelled here as the constantly-empty loader.  A PagedModel is identified with
the pager it wraps (the paging machinery itself is not under src/). -/
def EmptyModel : Pager IExtensionEntry :=
  { firstPage := [], total := 0, pageSize := 0, getPage := fun _ => [] }

/-- line 258: the mapping applied to every gallery result inside doSearch:
extension => ({ extension, state: ExtensionState.Installed }). -/
def doSearchEntry (extension : IExtension) : IExtensionEntry :=
  { extension := extension, state := ExtensionState.Installed }

/-- lines 256-259: doSearch queries the gallery for the text and wraps the
result in PagedModel(mapPager(result, extension => ({ extension, state:
ExtensionState.Installed }))).  The gallery backend is the external collaborator
g. -/
def doSearchModel (g : String → Pager IExtension) (text : String) : Pager IExtensionEntry :=
  mapPager (g text) doSearchEntry

/-- A DOM parent in the embedding: the list slot a template's container was
created under, or the overlay layer. -/
inductive ElemId where
  | listSlot (i : Nat)
  | overlayElem
deriving DecidableEq

/-- lines 31-41: the view handles of one row template (ITemplateData).  DOM
element contents are modelled by the fields the source writes; parent is the
current parent of the container element. -/
structure TemplateState where
  extension : Option IExtension
  loadingClass : Bool
  iconDisplayed : Bool
  iconSrc : String
  nameText : String
  versionText : String
  authorText : String
  descriptionText : String
  body : String
  parent : ElemId
deriving DecidableEq

/-- lines 84-101: renderTemplate builds a fresh template whose container sits
under its list slot, with extension: null and all text empty. -/
def renderTemplate (slot : Nat) : TemplateState :=
  { extension := none
    loadingClass := false
    iconDisplayed := false
    iconSrc := ""
    nameText := ""
    versionText := ""
    authorText := ""
    descriptionText := ""
    body := ""
    parent := ElemId.listSlot slot }

/-- lines 103-112: renderPlaceholder. -/
def renderPlaceholder (index : Nat) (data : TemplateState) : TemplateState :=
  { data with
    loadingClass := true
    extension := none
    iconDisplayed := false
    nameText := ""
    versionText := ""
    authorText := ""
    descriptionText := ""
    body := "" }

/-- The localize collaborator at line 125 with the default English string:
localize('author', "by {0}", publisher). -/
def localizeAuthor (publisher : String) : String :=
  "by " ++ publisher

/-- lines 114-128: renderElement.  The source dereferences
extension.galleryInformation.versions[0] (lines 117 and 122) without a guard:
with galleryInformation null or an empty version sequence the source throws a
TypeError, modelled as none. -/
def renderElement (entry : IExtensionEntry) (index : Nat) (data : TemplateState) :
    Option TemplateState :=
  let extension := entry.extension
  let publisher :=
    match extension.galleryInformation with
    | some gi => gi.publisherDisplayName
    | none => extension.publisher
  match extension.galleryInformation with
  | none => none
  | some gi =>
    match gi.versions with
    | [] => none
    | version :: _ =>
      some { data with
        extension := some extension
        loadingClass := false
        iconDisplayed := true
        iconSrc := version.iconUrl
        nameText := extension.displayName
        versionText := " " ++ extension.version
        authorText := " " ++ localizeAuthor publisher
        descriptionText := extension.description
        body := "" }

/-- lines 311-317: the closure stored in highlightDisposable, which captures the
transitionend listener, the original parent of the container (line 290) and the
template itself. -/
structure Teardown where
  listenerId : Nat
  origParent : ElemId
  tid : Nat
deriving DecidableEq

/-- An in-flight supplementary-content fetch chain (lines 305-309), capturing
the template it will write into and the first version's readme URL and download
headers (lines 301-302). -/
structure FetchTask where
  tid : Nat
  readmeUrl : String
  downloadHeaders : List (String × String)
deriving DecidableEq

/-- lines 322-334: the resolved request options (the agent object returned by
getProxyAgent is opaque to the component and omitted).  The headers field is
empty as returned by request and is filled in by assign(opts, { headers }) at
line 306. -/
structure IRequestOptions where
  url : String
  strictSSL : Bool
  headers : List (String × String)
deriving DecidableEq

/-- lines 322-335: request(url).  UserSettings.getValue and getProxyAgent are
external collaborators; the settings promise arrives as an Except carrying the
resolved (proxyUrl, strictSSL) pair, and its rejection rejects the returned
options. -/
def request (settings : Except Unit (String × Bool)) (url : String) :
    Except Unit IRequestOptions :=
  settings.map fun st => { url := url, strictSSL := st.2, headers := [] }

/-- lines 305-308: the supplementary-content chain up to the final injection:
request(url) .then(opts => assign(opts, { headers })) .then(downloadText)
.then(marked.parse).  downloadText and marked.parse are external collaborators;
a rejection at any stage rejects the chain (the later then-handlers are
skipped). -/
def contentChainResult (settings : Except Unit (String × Bool)) (url : String)
    (headers : List (String × String)) (download : IRequestOptions → Except Unit String)
    (parse : String → Except Unit String) : Except Unit String :=
  match request settings url with
  | Except.error e => Except.error e
  | Except.ok opts =>
    match download { opts with headers := headers } with
    | Except.error e => Except.error e
    | Except.ok text => parse text

/-- The whole component state (fields of ExtensionsPart, lines 146-173, plus
the DOM facts the operations read and write).  Listeners are identified by
freshly allocated numbers; liveListeners holds the listeners currently
registered and not yet disposed; rootListeners are the ones held in toDispose
(the root click listener registered at lines 179-183). -/
structure PartState where
  templates : List (Nat × TemplateState)
  _highlight : Option Nat
  highlightDisposable : Option Teardown
  classHighlighted : Bool
  classAnimated : Bool
  classHighlightIn : Bool
  overlayHeight : String
  extBoxHeight : String
  liveListeners : List Nat
  nextListenerId : Nat
  rootListeners : List Nat
  pendingFetches : List FetchTask
  searchBoxValue : String
  debouncerPending : Option (String × Nat)
  inflightQueries : List String
  listModel : Pager IExtensionEntry
  threw : Bool

/-- The template with the given id in the renderer's template pool (templates
are identified by position; in the source, data is a direct object reference
into the array). -/
def lookupTemplate (ts : List (Nat × TemplateState)) (tid : Nat) : Option TemplateState :=
  match ts with
  | [] => none
  | p :: rest => if p.1 = tid then some p.2 else lookupTemplate rest tid

/-- Rebinds the template with the given id through f, leaving the pool
otherwise unchanged (the renderer owns the template array; operations mutate
one template object in place). -/
def updateTemplate (ts : List (Nat × TemplateState)) (tid : Nat)
    (f : TemplateState → TemplateState) : List (Nat × TemplateState) :=
  match ts with
  | [] => []
  | p :: rest =>
    (if p.1 = tid then (p.1, f p.2) else p) :: updateTemplate rest tid f

/-- The effect of highlightDisposable.dispose() (lines 312-317): dispose the
transitionend listener, re-append the container to its captured original
parent, set the overlay height to 0 and clear the injected body content.
Disposing the empty disposable (none) is a no-op. -/
def disposeHighlightDisposable (s : PartState) : PartState :=
  match s.highlightDisposable with
  | none => s
  | some td =>
    { s with
      liveListeners := s.liveListeners.erase td.listenerId
      templates := updateTemplate s.templates td.tid
        (fun t => { t with parent := td.origParent, body := "" })
      overlayHeight := "0" }

/-- lines 266-318: the highlight setter.  With null: remove the highlighted,
animated and highlight-in classes, dispose the highlight disposable and reset
it to empty.  With a template: add the animated and highlight-in classes, grow
the overlay, capture the container's parent (line 290), move the container into
the overlay (line 291), register the transitionend listener (lines 294-299),
start the supplementary-content fetch for versions[0] (lines 301-309) and store
the teardown closure (lines 312-317).  The source dereferences
data.extension.galleryInformation.versions with no guard: a missing extension,
missing gallery information or empty version sequence throws at lines 301-302,
after the parent swap and listener registration but before the fetch starts and
before the teardown is stored; that cut is modelled by the threw flag. -/
def setHighlight (s : PartState) (data : Option Nat) : PartState :=
  let s0 := { s with _highlight := data }
  match data with
  | none =>
    let s1 := { s0 with
      classHighlighted := false
      classAnimated := false
      classHighlightIn := false }
    let s2 := disposeHighlightDisposable s1
    { s2 with highlightDisposable := none }
  | some tid =>
    match lookupTemplate s0.templates tid with
    | none => s0
    | some t =>
      let s1 := { s0 with
        classAnimated := true
        classHighlightIn := true
        overlayHeight := s0.extBoxHeight }
      let origParent := t.parent
      let s2 := { s1 with
        templates := updateTemplate s1.templates tid
          (fun u => { u with parent := ElemId.overlayElem }) }
      let lid := s2.nextListenerId
      let s3 := { s2 with
        liveListeners := s2.liveListeners ++ [lid]
        nextListenerId := lid + 1 }
      match t.extension with
      | none => { s3 with threw := true }
      | some e =>
        match e.galleryInformation with
        | none => { s3 with threw := true }
        | some gi =>
          match gi.versions with
          | [] => { s3 with threw := true }
          | v :: _ =>
            let s4 := { s3 with
              pendingFetches := s3.pendingFetches ++
                [({ tid := tid, readmeUrl := v.readmeUrl,
                    downloadHeaders := v.downloadHeaders } : FetchTask)] }
            { s4 with
              highlightDisposable :=
                some { listenerId := lid, origParent := origParent, tid := tid } }

/-- Settlement of the i-th pending content fetch with the chain result.  On
success the final then-handler runs: data.body.innerHTML = html (line 309),
written through to the captured template unconditionally.  On rejection the
handler is skipped and nothing else happens (the chain has no error handler). -/
def settleFetch (s : PartState) (i : Nat) (out : Except Unit String) : PartState :=
  match s.pendingFetches.get? i with
  | none => s
  | some ft =>
    let s1 := { s with pendingFetches := s.pendingFetches.eraseIdx i }
    match out with
    | Except.ok html =>
      { s1 with
        templates := updateTemplate s1.templates ft.tid
          (fun t => { t with body := html }) }
    | Except.error _ => s1

/-- First template whose bound extension has the given id:
renderer.templates.filter(t => t.extension && getExtensionId(t.extension) ===
id) followed by taking the first element (line 212). -/
def findTemplateByExtId (ts : List (Nat × TemplateState)) (id : String) :
    Option (Nat × TemplateState) :=
  ts.find? fun p =>
    match p.2.extension with
    | some e => getExtensionId e == id
    | none => false

/-- lines 198-219: the selection-changed handler.  The guard
if (this.highlightDisposable) is always true in the source (the field holds at
least the empty disposable, a truthy object), so the block always runs: remove
the animated class, dispose the highlight disposable, reset it to empty.  Then,
if an entry is selected and a template is bound to its extension id, assign the
highlight setter. -/
def onSelectionChange (s : PartState) (elements : List IExtensionEntry) : PartState :=
  let s0 := { s with classAnimated := false }
  let s1 := disposeHighlightDisposable s0
  let s2 := { s1 with highlightDisposable := none }
  match elements.head? with
  | none => s2
  | some selected =>
    match findTemplateByExtId s2.templates (getExtensionId selected.extension) with
    | none => s2
    | some (tid, _) => setHighlight s2 (some tid)

/-- Modelled from the spec: the Debouncer trigger rule (section 4.1;
ThrottledDelayer lives in vs/base/common/async, not under src/).  A trigger
replaces any pending not-yet-started invocation with the new one, scheduled at
now + delay. -/
def debTrigger (now : Nat) (text : String) (delay : Nat) : Option (String × Nat) :=
  some (text, now + delay)

/-- lines 246-254: triggerSearch(text, delay): clear the highlight through the
setter, swap the list model to the shared EmptyModel, then hand the action
() => this.doSearch(text) to the delayer.  The loading-class bookkeeping of
lines 252-253 is purely visual and not modelled. -/
def triggerSearchOp (s : PartState) (now : Nat) (text : String) (delay : Nat) : PartState :=
  let s1 := setHighlight s none
  let s2 := { s1 with listModel := EmptyModel }
  { s2 with debouncerPending := debTrigger now text delay }

/-- The debounce deadline is reached: the pending action starts.  The started
action is () => this.doSearch(text) (line 250), which issues one gallery query
for the text (line 257), modelled as the text joining the in-flight set. -/
def fireDebounce (s : PartState) (now : Nat) : PartState :=
  match s.debouncerPending with
  | some (txt, dl) =>
    if dl ≤ now then
      { s with
        debouncerPending := none
        inflightQueries := s.inflightQueries ++ [txt] }
    else s
  | none => s

/-- Resolution of an in-flight gallery query (lines 257-259): the result is
mapped into entries and assigned as the list model.  Nothing in the source
cancels a started query or guards this assignment. -/
def resolveQueryOp (g : String → Pager IExtension) (s : PartState) (text : String) :
    PartState :=
  if s.inflightQueries.contains text then
    { s with
      inflightQueries := s.inflightQueries.erase text
      listModel := doSearchModel g text }
  else s

/-- lines 222-230: setVisible(true): clear the highlight, reset the search box
and trigger an empty-query search with delay 0 through triggerSearch. -/
def setVisibleTrue (s : PartState) (now : Nat) : PartState :=
  let s1 := setHighlight s none
  let s2 := { s1 with searchBoxValue := "" }
  triggerSearchOp s2 now "" 0

/-- lines 179-183: the root click handler: with the click on the root itself
and a truthy highlight, assign null to the setter. -/
def clickRootOp (s : PartState) (targetIsRoot : Bool) : PartState :=
  if targetIsRoot && s._highlight.isSome then setHighlight s none else s

/-- lines 294-299: the transitionend handler: dispose its own listener, remove
the animated and highlight-in classes, add the highlighted class.  It runs only
while its listener is registered. -/
def transitionEndOp (s : PartState) (lid : Nat) : PartState :=
  if s.liveListeners.contains lid && !(s.rootListeners.contains lid) then
    { s with
      liveListeners := s.liveListeners.erase lid
      classAnimated := false
      classHighlightIn := false
      classHighlighted := true }
  else s

/-- lines 337-341: dispose().  The source writes the _highlight field directly
(not through the setter), disposes the toDispose listeners and calls
super.dispose() (external).  Nothing disposes highlightDisposable, cancels the
delayer or the in-flight fetches. -/
def disposePart (s : PartState) : PartState :=
  let s1 := { s with _highlight := none }
  { s1 with
    liveListeners := s1.liveListeners.filter (fun l => !(s1.rootListeners.contains l))
    rootListeners := [] }

/-- The interleaved asynchronous events of the component (spec section 5: one
cooperative thread; suspension points are the debounce timer, the gallery
query, the content fetch and the transitionend signal). -/
inductive PartEvent where
  | evTrigger (now : Nat) (text : String) (delay : Nat)
  | evFire (now : Nat)
  | evResolveQuery (text : String)
  | evSettleFetch (i : Nat) (out : Except Unit String)
  | evSelect (elements : List IExtensionEntry)
  | evClickRoot (targetIsRoot : Bool)
  | evSetVisibleTrue (now : Nat)
  | evTransitionEnd (lid : Nat)
  | evDispose

/-- One step of the component under gallery backend g. -/
def stepPart (g : String → Pager IExtension) (s : PartState) : PartEvent → PartState
  | PartEvent.evTrigger now text delay => triggerSearchOp s now text delay
  | PartEvent.evFire now => fireDebounce s now
  | PartEvent.evResolveQuery text => resolveQueryOp g s text
  | PartEvent.evSettleFetch i out => settleFetch s i out
  | PartEvent.evSelect es => onSelectionChange s es
  | PartEvent.evClickRoot r => clickRootOp s r
  | PartEvent.evSetVisibleTrue now => setVisibleTrue s now
  | PartEvent.evTransitionEnd lid => transitionEndOp s lid
  | PartEvent.evDispose => disposePart s

/-- A run of the component over an event list. -/
def runPart (g : String → Pager IExtension) (s : PartState) (evs : List PartEvent) :
    PartState :=
  evs.foldl (stepPart g) s

/-- Modelled from the spec: the Debouncer over a full timed call sequence
(section 4.1).  Input: the pending invocation, if any, and the trigger calls as
(time, text) pairs in time order.  Output: the actions that start, as
(text, start time) pairs: a pending invocation whose deadline precedes the next
trigger starts; otherwise the trigger discards it; after the last trigger the
remaining pending invocation starts at its deadline (delayMs of quiescence). -/
def runDebounce (delay : Nat) : Option (String × Nat) → List (Nat × String) → List (String × Nat)
  | pending, [] =>
    match pending with
    | some (txt, dl) => [(txt, dl)]
    | none => []
  | pending, (t, txt) :: rest =>
    match pending with
    | some (ptxt, dl) =>
      if dl ≤ t then (ptxt, dl) :: runDebounce delay (debTrigger t txt delay) rest
      else runDebounce delay (debTrigger t txt delay) rest
    | none => runDebounce delay (debTrigger t txt delay) rest

/-- The gallery queries a call sequence issues through triggerSearch: each
started action () => this.doSearch(text) (line 250) issues exactly one
galleryService.query({ text }) (line 257); the delayer is constructed with the
500 ms default (line 169), which triggerSearch passes unchanged (line 246). -/
def searchQueriesIssued (calls : List (Nat × String)) : List String :=
  (runDebounce 500 none calls).map Prod.fst

/-- A call sequence is rapid when consecutive calls are in time order and each
arrives within less than the delay of the previous one. -/
def rapid (delay : Nat) : List (Nat × String) → Bool
  | [] => true
  | [_] => true
  | a :: b :: rest =>
    decide (a.1 < b.1) && decide (b.1 < a.1 + delay) && rapid delay (b :: rest)

/-- A concrete gallery version used by the witnesses. -/
def sampleVersion : IExtensionVersion :=
  { iconUrl := "http://gallery/icon.png"
    readmeUrl := "http://gallery/readme.md"
    downloadHeaders := [("X-Market-User-Id", "u")] }

/-- A concrete gallery record used by the witnesses. -/
def sampleGallery : IGalleryInformation :=
  { publisherDisplayName := "Sample Publisher", versions := [sampleVersion] }

/-- A concrete extension used by the witnesses. -/
def extA : IExtension :=
  { name := "ext-a"
    publisher := "pub"
    displayName := "Ext A"
    version := "1.0.0"
    description := "sample extension a"
    galleryInformation := some sampleGallery }

/-- A second concrete extension (distinct id) used by the witnesses. -/
def extB : IExtension :=
  { name := "ext-b"
    publisher := "pub"
    displayName := "Ext B"
    version := "2.0.0"
    description := "sample extension b"
    galleryInformation := some sampleGallery }

/-- The state after the constructor (lines 162-173) and createEditor (lines
175-220): two rendered row templates, the root click listener registered as
listener 0, empty highlight, empty disposable, the empty model. -/
def initState : PartState :=
  { templates := [(0, renderTemplate 0), (1, renderTemplate 1)]
    _highlight := none
    highlightDisposable := none
    classHighlighted := false
    classAnimated := false
    classHighlightIn := false
    overlayHeight := ""
    extBoxHeight := "628px"
    liveListeners := [0]
    nextListenerId := 1
    rootListeners := [0]
    pendingFetches := []
    searchBoxValue := ""
    debouncerPending := none
    inflightQueries := []
    listModel := EmptyModel
    threw := false }

/-- Template 0 after renderElement bound it to extA. -/
def tplA : TemplateState :=
  (renderElement (doSearchEntry extA) 0 (renderTemplate 0)).getD (renderTemplate 0)

/-- Template 1 after renderElement bound it to extB. -/
def tplB : TemplateState :=
  (renderElement (doSearchEntry extB) 1 (renderTemplate 1)).getD (renderTemplate 1)

/-- initState with templates 0 and 1 rendered for extA and extB. -/
def boundState : PartState :=
  { initState with templates := [(0, tplA), (1, tplB)] }

/-- boundState after template 0 was expanded through the highlight setter:
an active highlight with a pending content fetch. -/
def sExpanded : PartState :=
  setHighlight boundState (some 0)

/-- A gallery backend for the witnesses: query "A" returns one extension, any
other query returns nothing. -/
def galleryAB : String → Pager IExtension := fun t =>
  if t = "A" then { firstPage := [extA], total := 1, pageSize := 10, getPage := fun _ => [] }
  else { firstPage := [], total := 0, pageSize := 10, getPage := fun _ => [] }


/-! ## Helper lemmas about the template pool -/

theorem lookupTemplate_updateTemplate_self (ts : List (Nat × TemplateState)) (tid : Nat)
    (f : TemplateState → TemplateState) :
    lookupTemplate (updateTemplate ts tid f) tid = (lookupTemplate ts tid).map f := by
  induction ts with
  | nil => rfl
  | cons p rest ih =>
    by_cases h : p.1 = tid
    · simp [updateTemplate, lookupTemplate, h]
    · simp [updateTemplate, lookupTemplate, h, ih]

theorem lookupTemplate_updateTemplate_ne (ts : List (Nat × TemplateState)) (tid tid' : Nat)
    (f : TemplateState → TemplateState) (h : tid' ≠ tid) :
    lookupTemplate (updateTemplate ts tid f) tid' = lookupTemplate ts tid' := by
  induction ts with
  | nil => rfl
  | cons p rest ih =>
    by_cases hk : p.1 = tid
    · have hts : ¬ tid = tid' := fun he => h he.symm
      simp [updateTemplate, lookupTemplate, hk, hts, ih]
    · by_cases hk' : p.1 = tid'
      · have hts : ¬ tid' = tid := h
        simp [updateTemplate, lookupTemplate, hk, hk', hts]
      · simp [updateTemplate, lookupTemplate, hk, hk', ih]

theorem map_fst_updateTemplate (ts : List (Nat × TemplateState)) (tid : Nat)
    (f : TemplateState → TemplateState) :
    (updateTemplate ts tid f).map Prod.fst = ts.map Prod.fst := by
  induction ts with
  | nil => rfl
  | cons p rest ih =>
    by_cases h : p.1 = tid <;> simp [updateTemplate, h, ih]

theorem lookupTemplate_of_find? (ts : List (Nat × TemplateState))
    (p : Nat × TemplateState → Bool) (tid : Nat) (t : TemplateState)
    (hnd : (ts.map Prod.fst).Nodup) (h : ts.find? p = some (tid, t)) :
    lookupTemplate ts tid = some t := by
  induction ts with
  | nil => simp at h
  | cons q rest ih =>
    simp only [List.map_cons, List.nodup_cons] at hnd
    by_cases hp : p q = true
    · rw [List.find?_cons_of_pos _ hp] at h
      injection h with h'
      subst h'
      simp [lookupTemplate]
    · rw [List.find?_cons_of_neg _ hp] at h
      have hmem : (tid, t) ∈ rest := List.mem_of_find?_eq_some h
      have htid : tid ∈ rest.map Prod.fst := List.mem_map_of_mem Prod.fst hmem
      have hne : ¬ q.1 = tid := fun he => hnd.1 (he ▸ htid)
      simp only [lookupTemplate, if_neg hne]
      exact ih hnd.2 h

/-! ## Unfolding lemmas for the component operations -/

theorem disposeHighlightDisposable_none (s : PartState) (h : s.highlightDisposable = none) :
    disposeHighlightDisposable s = s := by
  simp [disposeHighlightDisposable, h]

theorem disposeHighlightDisposable_some (s : PartState) (td : Teardown)
    (h : s.highlightDisposable = some td) :
    disposeHighlightDisposable s = { s with
      liveListeners := s.liveListeners.erase td.listenerId
      templates := updateTemplate s.templates td.tid
        (fun t => { t with parent := td.origParent, body := "" })
      overlayHeight := "0" } := by
  simp [disposeHighlightDisposable, h]

theorem setHighlight_some_spec (s : PartState) (tid : Nat) (t : TemplateState)
    (e : IExtension) (gi : IGalleryInformation) (v : IExtensionVersion)
    (rest : List IExtensionVersion)
    (hlook : lookupTemplate s.templates tid = some t)
    (hext : t.extension = some e)
    (hgi : e.galleryInformation = some gi)
    (hv : gi.versions = v :: rest) :
    setHighlight s (some tid) = { s with
      _highlight := some tid
      classAnimated := true
      classHighlightIn := true
      overlayHeight := s.extBoxHeight
      templates := updateTemplate s.templates tid
        (fun u => { u with parent := ElemId.overlayElem })
      liveListeners := s.liveListeners ++ [s.nextListenerId]
      nextListenerId := s.nextListenerId + 1
      pendingFetches := s.pendingFetches ++
        [{ tid := tid, readmeUrl := v.readmeUrl, downloadHeaders := v.downloadHeaders }]
      highlightDisposable :=
        some { listenerId := s.nextListenerId, origParent := t.parent, tid := tid } } := by
  simp only [setHighlight, hlook, hext, hgi, hv]

theorem setHighlight_none_fields (s : PartState) :
    (setHighlight s none)._highlight = none ∧
    (setHighlight s none).classHighlighted = false ∧
    (setHighlight s none).classAnimated = false ∧
    (setHighlight s none).classHighlightIn = false ∧
    (setHighlight s none).highlightDisposable = none ∧
    (setHighlight s none).threw = s.threw ∧
    (setHighlight s none).searchBoxValue = s.searchBoxValue ∧
    (setHighlight s none).debouncerPending = s.debouncerPending ∧
    (setHighlight s none).inflightQueries = s.inflightQueries ∧
    (setHighlight s none).listModel = s.listModel ∧
    (setHighlight s none).nextListenerId = s.nextListenerId ∧
    (setHighlight s none).rootListeners = s.rootListeners ∧
    (setHighlight s none).extBoxHeight = s.extBoxHeight := by
  cases h : s.highlightDisposable <;>
    simp [setHighlight, disposeHighlightDisposable, h]

theorem triggerSearchOp_fields (s : PartState) (now : Nat) (text : String) (delay : Nat) :
    (triggerSearchOp s now text delay).listModel = EmptyModel ∧
    (triggerSearchOp s now text delay)._highlight = none ∧
    (triggerSearchOp s now text delay).highlightDisposable = none ∧
    (triggerSearchOp s now text delay).debouncerPending = some (text, now + delay) ∧
    (triggerSearchOp s now text delay).inflightQueries = s.inflightQueries ∧
    (triggerSearchOp s now text delay).searchBoxValue = s.searchBoxValue ∧
    (triggerSearchOp s now text delay).threw = s.threw := by
  obtain ⟨h1, h2, h3, h4, h5, h6, h7, h8, h9, h10, h11, h12, h13⟩ := setHighlight_none_fields s
  simp [triggerSearchOp, debTrigger, h1, h5, h6, h7, h9]

/-! ## Claim theorems -/

/-- C4: collapse is idempotent and total.  Setting the highlight to null is a
total function on states; doing it twice in succession equals doing it once
(so the DOM restoration in the teardown runs at most once, and nothing throws:
the threw flag is untouched), and it always leaves the component in the
non-highlighted state: no highlight, highlight classes removed, highlight
disposable reset to the empty disposable. -/
theorem C4_collapse_idempotent_total (s : PartState) :
    setHighlight (setHighlight s none) none = setHighlight s none ∧
    (setHighlight s none)._highlight = none ∧
    (setHighlight s none).classHighlighted = false ∧
    (setHighlight s none).classAnimated = false ∧
    (setHighlight s none).classHighlightIn = false ∧
    (setHighlight s none).highlightDisposable = none ∧
    (setHighlight s none).threw = s.threw := by
  obtain ⟨h1, h2, h3, h4, h5, h6, _⟩ := setHighlight_none_fields s
  refine ⟨?_, h1, h2, h3, h4, h5, h6⟩
  cases h : s.highlightDisposable <;>
    simp [setHighlight, disposeHighlightDisposable, h]

/-- C8: every call to setVisible(true) clears the highlight, resets the search
box value to the empty string, and triggers an empty-query search with delay 0
through the same debounced scheduling path as an ordinary search (the first
conjunct: setVisibleTrue literally goes through triggerSearchOp, whose delayer
trigger rule is debTrigger). -/
theorem C8_setVisible_resets (s : PartState) (now : Nat) :
    setVisibleTrue s now
      = triggerSearchOp { setHighlight s none with searchBoxValue := "" } now "" 0 ∧
    (setVisibleTrue s now).searchBoxValue = "" ∧
    (setVisibleTrue s now)._highlight = none ∧
    (setVisibleTrue s now).highlightDisposable = none ∧
    (setVisibleTrue s now).listModel = EmptyModel ∧
    (setVisibleTrue s now).debouncerPending = debTrigger now "" 0 := by
  obtain ⟨t1, t2, t3, t4, t5, t6, t7⟩ := triggerSearchOp_fields
    { setHighlight s none with searchBoxValue := "" } now "" 0
  exact ⟨rfl, by simpa [setVisibleTrue] using t6, by simpa [setVisibleTrue] using t2,
         by simpa [setVisibleTrue] using t3, by simpa [setVisibleTrue] using t1,
         by simpa [setVisibleTrue, debTrigger] using t4⟩

/-- C10: every entry produced by the search path is classified Installed:
doSearch maps every gallery result (on the first page and on every on-demand
page) to an entry with state ExtensionState.Installed, so the Uninstalled and
Outdated states are never produced by the search path. -/
theorem C10_search_always_installed (g : String → Pager IExtension) (text : String)
    (entry : IExtensionEntry)
    (h : entry ∈ (doSearchModel g text).firstPage ∨
         ∃ i, entry ∈ (doSearchModel g text).getPage i) :
    entry.state = ExtensionState.Installed := by
  have hof : ∀ e : IExtension, (doSearchEntry e).state = ExtensionState.Installed :=
    fun _ => rfl
  rcases h with h | ⟨i, h⟩
  · simp only [doSearchModel, mapPager, List.mem_map] at h
    obtain ⟨e, _, he⟩ := h
    rw [← he]; exact hof e
  · simp only [doSearchModel, mapPager, List.mem_map] at h
    obtain ⟨e, _, he⟩ := h
    rw [← he]; exact hof e

/-- C10 witness: the search entry for extA under galleryAB is on the first
page and carries state Installed. -/
theorem C10_witness :
    doSearchEntry extA ∈ (doSearchModel galleryAB "A").firstPage ∧
    (doSearchEntry extA).state = ExtensionState.Installed :=
  ⟨by decide,
   C10_search_always_installed galleryAB "A" (doSearchEntry extA) (Or.inl (by decide))⟩

/-- C9: for an entry whose extension carries a non-empty version sequence, row
rendering uses exactly the first version's iconUrl, and highlight expansion
issues its content fetch with exactly the first version's readmeUrl and
downloadHeaders. -/
theorem C9_first_version_is_the_contract (entry : IExtensionEntry) (index : Nat)
    (data : TemplateState) (gi : IGalleryInformation) (v : IExtensionVersion)
    (rest : List IExtensionVersion) (s : PartState) (tid : Nat) (t : TemplateState)
    (hgi : entry.extension.galleryInformation = some gi)
    (hv : gi.versions = v :: rest)
    (hlook : lookupTemplate s.templates tid = some t)
    (hext : t.extension = some entry.extension) :
    (∃ d2, renderElement entry index data = some d2 ∧ d2.iconSrc = v.iconUrl) ∧
    (setHighlight s (some tid)).pendingFetches = s.pendingFetches ++
      [{ tid := tid, readmeUrl := v.readmeUrl, downloadHeaders := v.downloadHeaders }] := by
  constructor
  · cases hre : renderElement entry index data with
    | none =>
      exfalso
      simp [renderElement, hgi, hv] at hre
    | some d2 =>
      refine ⟨d2, rfl, ?_⟩
      simp only [renderElement, hgi, hv, Option.some.injEq] at hre
      rw [← hre]
  · rw [setHighlight_some_spec s tid t entry.extension gi v rest hlook hext hgi hv]

/-- C9 witness: extA carries the single version sampleVersion; rendering it
into template 0 uses sampleVersion.iconUrl and expanding template 0 of
boundState fetches sampleVersion.readmeUrl with sampleVersion.downloadHeaders. -/
theorem C9_witness :
    (∃ d2, renderElement (doSearchEntry extA) 0 (renderTemplate 0) = some d2 ∧
      d2.iconSrc = sampleVersion.iconUrl) ∧
    (setHighlight boundState (some 0)).pendingFetches = boundState.pendingFetches ++
      [{ tid := 0, readmeUrl := sampleVersion.readmeUrl,
         downloadHeaders := sampleVersion.downloadHeaders }] :=
  C9_first_version_is_the_contract (doSearchEntry extA) 0 (renderTemplate 0)
    sampleGallery sampleVersion [] boundState 0 tplA rfl rfl (by decide) (by decide)

/-- C1 (amended): the fetched supplementary content is not discarded when the
highlight has transitioned away: resolution of a pending content fetch writes
the fetched markup into the captured template's body unconditionally — the
code performs no check that the highlight state still references the original
template (the teardown clears the body at collapse time, but a fetch resolving
after the transition re-populates it). -/
theorem C1_fetch_applied_unconditionally (s : PartState) (i : Nat) (ft : FetchTask)
    (html : String) (hft : s.pendingFetches.get? i = some ft) :
    lookupTemplate (settleFetch s i (Except.ok html)).templates ft.tid
      = (lookupTemplate s.templates ft.tid).map (fun t => { t with body := html }) ∧
    (settleFetch s i (Except.ok html))._highlight = s._highlight := by
  unfold settleFetch
  rw [hft]
  exact ⟨lookupTemplate_updateTemplate_self s.templates ft.tid _, rfl⟩

/-- C1 witness: resolving the pending fetch of sExpanded writes the markup
into template 0's body. -/
theorem C1_witness :
    lookupTemplate (settleFetch sExpanded 0 (Except.ok "<p>readme</p>")).templates 0
      = (lookupTemplate sExpanded.templates 0).map
          (fun t => { t with body := "<p>readme</p>" }) ∧
    (settleFetch sExpanded 0 (Except.ok "<p>readme</p>"))._highlight
      = sExpanded._highlight :=
  C1_fetch_applied_unconditionally sExpanded 0
    { tid := 0, readmeUrl := sampleVersion.readmeUrl,
      downloadHeaders := sampleVersion.downloadHeaders }
    "<p>readme</p>" (by decide)

/-- C1 counterexample: expand template 0 of boundState, collapse (the
highlight transitions away from the entry) while the fetch is still pending,
then let the fetch resolve: the fetched markup is injected into the template's
body anyway — it is not discarded, because the code has no staleness check. -/
theorem C1_counterexample :
    ((setHighlight (setHighlight boundState (some 0)) none)._highlight = none) ∧
    ((lookupTemplate (settleFetch (setHighlight (setHighlight boundState (some 0)) none) 0
        (Except.ok "STALE")).templates 0).map TemplateState.body = some "STALE") ∧
    some "STALE" ≠ some "" := by
  refine ⟨by decide, by decide, by decide⟩

/-- C2: a failing supplementary-content fetch is harmless.  If any stage of
the chain rejects (the request-options resolution, the download, or the
parse — the chain result is an error), settling the fetch leaves the overlay
exactly as expanded as before: the highlight still points at the template, the
template (in the overlay, with empty body) is untouched, the classes, the
teardown, the listeners and the threw flag are unchanged — no exception, no
escaping error, only an absent enrichment. -/
theorem C2_fetch_failure_harmless (s : PartState) (i : Nat) (tid : Nat)
    (t : TemplateState) (settings : Except Unit (String × Bool)) (url : String)
    (headers : List (String × String)) (download : IRequestOptions → Except Unit String)
    (parse : String → Except Unit String)
    (hh : s._highlight = some tid)
    (hlook : lookupTemplate s.templates tid = some t)
    (hpar : t.parent = ElemId.overlayElem)
    (hbody : t.body = "")
    (hfail : contentChainResult settings url headers download parse = Except.error ()) :
    ((settleFetch s i (contentChainResult settings url headers download parse))._highlight
        = some tid) ∧
    (lookupTemplate
        (settleFetch s i (contentChainResult settings url headers download parse)).templates
        tid = some t) ∧
    t.parent = ElemId.overlayElem ∧
    t.body = "" ∧
    ((settleFetch s i (contentChainResult settings url headers download parse)).classHighlighted
        = s.classHighlighted) ∧
    ((settleFetch s i (contentChainResult settings url headers download parse)).classAnimated
        = s.classAnimated) ∧
    ((settleFetch s i (contentChainResult settings url headers download parse)).classHighlightIn
        = s.classHighlightIn) ∧
    ((settleFetch s i (contentChainResult settings url headers download parse)).highlightDisposable
        = s.highlightDisposable) ∧
    ((settleFetch s i (contentChainResult settings url headers download parse)).liveListeners
        = s.liveListeners) ∧
    ((settleFetch s i (contentChainResult settings url headers download parse)).threw
        = s.threw) := by
  rw [hfail]
  unfold settleFetch
  cases hget : s.pendingFetches.get? i <;>
    simp [hh, hlook, hpar, hbody]

/-- C2 witness: on sExpanded, the proxy-settings resolution rejecting makes
the whole chain reject, and settling that failed fetch leaves the expanded
overlay state untouched with an empty body. -/
theorem C2_witness :
    ((settleFetch sExpanded 0 (contentChainResult (Except.error ())
        sampleVersion.readmeUrl sampleVersion.downloadHeaders
        (fun _ => Except.ok "text") (fun _ => Except.ok "html")))._highlight = some 0) ∧
    (lookupTemplate (settleFetch sExpanded 0 (contentChainResult (Except.error ())
        sampleVersion.readmeUrl sampleVersion.downloadHeaders
        (fun _ => Except.ok "text") (fun _ => Except.ok "html"))).templates 0
      = some { tplA with parent := ElemId.overlayElem }) ∧
    ({ tplA with parent := ElemId.overlayElem } : TemplateState).parent
      = ElemId.overlayElem ∧
    ({ tplA with parent := ElemId.overlayElem } : TemplateState).body = "" ∧
    ((settleFetch sExpanded 0 (contentChainResult (Except.error ())
        sampleVersion.readmeUrl sampleVersion.downloadHeaders
        (fun _ => Except.ok "text") (fun _ => Except.ok "html"))).classHighlighted
      = sExpanded.classHighlighted) ∧
    ((settleFetch sExpanded 0 (contentChainResult (Except.error ())
        sampleVersion.readmeUrl sampleVersion.downloadHeaders
        (fun _ => Except.ok "text") (fun _ => Except.ok "html"))).classAnimated
      = sExpanded.classAnimated) ∧
    ((settleFetch sExpanded 0 (contentChainResult (Except.error ())
        sampleVersion.readmeUrl sampleVersion.downloadHeaders
        (fun _ => Except.ok "text") (fun _ => Except.ok "html"))).classHighlightIn
      = sExpanded.classHighlightIn) ∧
    ((settleFetch sExpanded 0 (contentChainResult (Except.error ())
        sampleVersion.readmeUrl sampleVersion.downloadHeaders
        (fun _ => Except.ok "text") (fun _ => Except.ok "html"))).highlightDisposable
      = sExpanded.highlightDisposable) ∧
    ((settleFetch sExpanded 0 (contentChainResult (Except.error ())
        sampleVersion.readmeUrl sampleVersion.downloadHeaders
        (fun _ => Except.ok "text") (fun _ => Except.ok "html"))).liveListeners
      = sExpanded.liveListeners) ∧
    ((settleFetch sExpanded 0 (contentChainResult (Except.error ())
        sampleVersion.readmeUrl sampleVersion.downloadHeaders
        (fun _ => Except.ok "text") (fun _ => Except.ok "html"))).threw
      = sExpanded.threw) :=
  C2_fetch_failure_harmless sExpanded 0 0 { tplA with parent := ElemId.overlayElem }
    (Except.error ()) sampleVersion.readmeUrl sampleVersion.downloadHeaders
    (fun _ => Except.ok "text") (fun _ => Except.ok "html")
    (by decide) (by decide) (by decide) (by decide) rfl

/-- C3: at most one entry is highlighted at a time (the highlight is a single
optional reference), and selecting entry Y while X is highlighted runs X's
teardown first and completely — X's container re-appended to its captured
original parent, X's transition listener disposed, X's injected body cleared —
before Y's expansion begins (first conjunct: the handler literally collapses
through the disposable and only then calls the highlight setter for Y). -/
theorem C3_teardown_before_expansion (s : PartState) (td : Teardown) (tX : TemplateState)
    (entryY : IExtensionEntry) (ty : Nat) (tY : TemplateState) (eY : IExtension)
    (gi : IGalleryInformation) (v : IExtensionVersion) (rest : List IExtensionVersion)
    (hteardown : s.highlightDisposable = some td)
    (hX : lookupTemplate s.templates td.tid = some tX)
    (hlive : s.liveListeners.Nodup)
    (hfresh : td.listenerId < s.nextListenerId)
    (hkeys : (s.templates.map Prod.fst).Nodup)
    (hfind : findTemplateByExtId
        (updateTemplate s.templates td.tid
          (fun t => { t with parent := td.origParent, body := "" }))
        (getExtensionId entryY.extension) = some (ty, tY))
    (hne : ty ≠ td.tid)
    (hext : tY.extension = some eY)
    (hgi : eY.galleryInformation = some gi)
    (hv : gi.versions = v :: rest) :
    (onSelectionChange s [entryY]
      = setHighlight
          { disposeHighlightDisposable { s with classAnimated := false } with
              highlightDisposable := none } (some ty)) ∧
    (lookupTemplate (onSelectionChange s [entryY]).templates td.tid
      = some { tX with parent := td.origParent, body := "" }) ∧
    (td.listenerId ∉ (onSelectionChange s [entryY]).liveListeners) ∧
    ((onSelectionChange s [entryY])._highlight = some ty) ∧
    ((lookupTemplate (onSelectionChange s [entryY]).templates ty).map TemplateState.parent
      = some ElemId.overlayElem) ∧
    ((onSelectionChange s [entryY]).highlightDisposable
      = some { listenerId := s.nextListenerId, origParent := tY.parent, tid := ty }) ∧
    ((onSelectionChange s [entryY]).pendingFetches
      = s.pendingFetches ++
        [{ tid := ty, readmeUrl := v.readmeUrl, downloadHeaders := v.downloadHeaders }]) := by
  have hs0d : ({ s with classAnimated := false } : PartState).highlightDisposable
      = some td := hteardown
  have hdisp := disposeHighlightDisposable_some { s with classAnimated := false } td hs0d
  have hstep : onSelectionChange s [entryY]
      = setHighlight
          { disposeHighlightDisposable { s with classAnimated := false } with
              highlightDisposable := none } (some ty) := by
    simp only [onSelectionChange, List.head?]
    rw [hdisp]
    simp only []
    rw [hfind]
  have hs2t : ({ disposeHighlightDisposable { s with classAnimated := false } with
      highlightDisposable := none } : PartState).templates
      = updateTemplate s.templates td.tid
          (fun t => { t with parent := td.origParent, body := "" }) := by
    rw [hdisp]
  have hkeys2 : ((updateTemplate s.templates td.tid
      (fun t => { t with parent := td.origParent, body := "" })).map Prod.fst).Nodup := by
    rw [map_fst_updateTemplate]; exact hkeys
  have hlookY : lookupTemplate
      (updateTemplate s.templates td.tid
        (fun t => { t with parent := td.origParent, body := "" })) ty = some tY :=
    lookupTemplate_of_find? _ _ ty tY hkeys2 hfind
  have hspec := setHighlight_some_spec
    { disposeHighlightDisposable { s with classAnimated := false } with
        highlightDisposable := none } ty tY eY gi v rest
    (by rw [hs2t]; exact hlookY) hext hgi hv
  have hne' : td.tid ≠ ty := Ne.symm hne
  refine ⟨hstep, ?_, ?_, ?_, ?_, ?_, ?_⟩
  · rw [hstep, hspec]
    show lookupTemplate (updateTemplate _ ty _) td.tid = _
    rw [lookupTemplate_updateTemplate_ne _ _ _ _ hne', hs2t,
        lookupTemplate_updateTemplate_self, hX]
    rfl
  · rw [hstep, hspec]
    show td.listenerId ∉ _ ++ [_]
    rw [hdisp]
    simp only [List.mem_append, List.mem_singleton]
    rintro (hmem | hmem)
    · exact ((hlive.mem_erase_iff).mp hmem).1 rfl
    · exact Nat.ne_of_lt hfresh hmem
  · rw [hstep, hspec]
  · rw [hstep, hspec]
    show (lookupTemplate (updateTemplate _ ty _) ty).map TemplateState.parent = _
    rw [lookupTemplate_updateTemplate_self, hs2t, hlookY]
    rfl
  · rw [hstep, hspec]
    rw [hdisp]
  · rw [hstep, hspec]
    rw [hdisp]

/-- C3 witness: with template 0 of boundState expanded (sExpanded), selecting
extB first tears template 0 down completely (restored to list slot 0, listener
1 disposed, body cleared) and only then expands template 1. -/
theorem C3_witness :
    (onSelectionChange sExpanded [doSearchEntry extB]
      = setHighlight
          { disposeHighlightDisposable { sExpanded with classAnimated := false } with
              highlightDisposable := none } (some 1)) ∧
    (lookupTemplate (onSelectionChange sExpanded [doSearchEntry extB]).templates 0
      = some { tplA with parent := ElemId.listSlot 0, body := "" }) ∧
    (1 ∉ (onSelectionChange sExpanded [doSearchEntry extB]).liveListeners) ∧
    ((onSelectionChange sExpanded [doSearchEntry extB])._highlight = some 1) ∧
    ((lookupTemplate (onSelectionChange sExpanded [doSearchEntry extB]).templates 1).map
        TemplateState.parent = some ElemId.overlayElem) ∧
    ((onSelectionChange sExpanded [doSearchEntry extB]).highlightDisposable
      = some { listenerId := 2, origParent := ElemId.listSlot 1, tid := 1 }) ∧
    ((onSelectionChange sExpanded [doSearchEntry extB]).pendingFetches
      = sExpanded.pendingFetches ++
        [{ tid := 1, readmeUrl := sampleVersion.readmeUrl,
           downloadHeaders := sampleVersion.downloadHeaders }]) :=
  C3_teardown_before_expansion sExpanded
    { listenerId := 1, origParent := ElemId.listSlot 0, tid := 0 }
    { tplA with parent := ElemId.overlayElem } (doSearchEntry extB) 1 tplB extB
    sampleGallery sampleVersion []
    (by decide) (by decide) (by decide) (by decide) (by decide) (by decide)
    (by decide) (by decide) (by decide) (by decide)

/-- Auxiliary induction for debounce coalescing: with a pending invocation
scheduled at t + delay and all later calls rapid, only the last call's
invocation ever starts. -/
theorem runDebounce_rapid_aux (delay : Nat) (cs : List (Nat × String)) :
    ∀ t x, rapid delay ((t, x) :: cs) = true →
      runDebounce delay (some (x, t + delay)) cs
        = [((cs.getLastD (t, x)).2, (cs.getLastD (t, x)).1 + delay)] := by
  induction cs with
  | nil => intro t x _; simp [runDebounce]
  | cons c cs ih =>
    intro t x h
    obtain ⟨t2, x2⟩ := c
    simp only [rapid, Bool.and_eq_true, decide_eq_true_eq] at h
    obtain ⟨⟨h1, h2⟩, h3⟩ := h
    have hnot : ¬ (t + delay ≤ t2) := Nat.not_le.mpr h2
    simp only [runDebounce, if_neg hnot, debTrigger, List.getLastD_cons]
    exact ih t2 x2 h3

/-- C6: debounce coalescing.  For a non-empty rapid sequence of triggerSearch
calls (each arriving in less than the 500 ms delay after the previous one),
exactly one action starts — after 500 ms of quiescence past the last call,
with the last call's text — so exactly one gallery query is issued, for the
text of the last call; the actions of all superseded calls never start. -/
theorem C6_debounce_coalescing (t : Nat) (x : String) (cs : List (Nat × String))
    (h : rapid 500 ((t, x) :: cs) = true) :
    runDebounce 500 none ((t, x) :: cs)
      = [((cs.getLastD (t, x)).2, (cs.getLastD (t, x)).1 + 500)] ∧
    searchQueriesIssued ((t, x) :: cs) = [(cs.getLastD (t, x)).2] := by
  have hrun : runDebounce 500 none ((t, x) :: cs)
      = runDebounce 500 (some (x, t + 500)) cs := by
    simp [runDebounce, debTrigger]
  have haux := runDebounce_rapid_aux 500 cs t x h
  refine ⟨hrun.trans haux, ?_⟩
  simp [searchQueriesIssued, hrun, haux]

/-- C6 witness: typing "foo" at 0 ms and "foobar" at 100 ms issues exactly one
query, for "foobar", starting at 600 ms. -/
theorem C6_witness :
    runDebounce 500 none [(0, "foo"), (100, "foobar")] = [("foobar", 600)] ∧
    searchQueriesIssued [(0, "foo"), (100, "foobar")] = ["foobar"] :=
  C6_debounce_coalescing 0 "foo" [(100, "foobar")] (by decide)

/-- C5 (amended): every call to triggerSearch synchronously replaces the list
model with the empty model and clears the highlight before the debounced
action can run (the action only starts once the deadline is reached: a fire
attempt before the deadline starts nothing), and a search superseded before
its action starts never issues its query and never sets the model.  (However —
see the counterexample — once a search's action has started, its backend
resolution still becomes the list model even after a newer search was
triggered.) -/
theorem C5_amended_superseded_search (g : String → Pager IExtension) (s : PartState)
    (tA tf tB dA dB : Nat) (xA xB : String) (hfire : tf < tA + dA) :
    ((triggerSearchOp s tA xA dA).listModel = EmptyModel ∧
     (triggerSearchOp s tA xA dA)._highlight = none ∧
     (triggerSearchOp s tA xA dA).highlightDisposable = none ∧
     (triggerSearchOp s tA xA dA).debouncerPending = some (xA, tA + dA) ∧
     (triggerSearchOp s tA xA dA).inflightQueries = s.inflightQueries) ∧
    ((runPart g s [PartEvent.evTrigger tA xA dA, PartEvent.evFire tf,
        PartEvent.evTrigger tB xB dB]).inflightQueries = s.inflightQueries) ∧
    ((runPart g s [PartEvent.evTrigger tA xA dA, PartEvent.evFire tf,
        PartEvent.evTrigger tB xB dB]).debouncerPending = some (xB, tB + dB)) ∧
    ((runPart g s [PartEvent.evTrigger tA xA dA, PartEvent.evFire tf,
        PartEvent.evTrigger tB xB dB]).listModel = EmptyModel) ∧
    ((runPart g s [PartEvent.evTrigger tA xA dA, PartEvent.evFire tf,
        PartEvent.evTrigger tB xB dB])._highlight = none) := by
  obtain ⟨a1, a2, a3, a4, a5, a6, a7⟩ := triggerSearchOp_fields s tA xA dA
  have hs2 : fireDebounce (triggerSearchOp s tA xA dA) tf = triggerSearchOp s tA xA dA := by
    simp only [fireDebounce, a4, if_neg (Nat.not_le.mpr hfire)]
  have hrun : runPart g s [PartEvent.evTrigger tA xA dA, PartEvent.evFire tf,
      PartEvent.evTrigger tB xB dB]
      = triggerSearchOp (fireDebounce (triggerSearchOp s tA xA dA) tf) tB xB dB := rfl
  obtain ⟨b1, b2, b3, b4, b5, b6, b7⟩ :=
    triggerSearchOp_fields (triggerSearchOp s tA xA dA) tB xB dB
  refine ⟨⟨a1, a2, a3, a4, a5⟩, ?_, ?_, ?_, ?_⟩
  · rw [hrun, hs2, b5, a5]
  · rw [hrun, hs2, b4]
  · rw [hrun, hs2, b1]
  · rw [hrun, hs2, b2]

/-- C5 witness: with search "A" triggered at 0 and superseded at 450 (a fire
attempt at 400 having started nothing), no query for "A" is ever issued and
the model stays empty with "B" pending. -/
theorem C5_witness :
    ((triggerSearchOp initState 0 "A" 500).listModel = EmptyModel ∧
     (triggerSearchOp initState 0 "A" 500)._highlight = none ∧
     (triggerSearchOp initState 0 "A" 500).highlightDisposable = none ∧
     (triggerSearchOp initState 0 "A" 500).debouncerPending = some ("A", 0 + 500) ∧
     (triggerSearchOp initState 0 "A" 500).inflightQueries = initState.inflightQueries) ∧
    ((runPart galleryAB initState [PartEvent.evTrigger 0 "A" 500, PartEvent.evFire 400,
        PartEvent.evTrigger 450 "B" 500]).inflightQueries = initState.inflightQueries) ∧
    ((runPart galleryAB initState [PartEvent.evTrigger 0 "A" 500, PartEvent.evFire 400,
        PartEvent.evTrigger 450 "B" 500]).debouncerPending = some ("B", 450 + 500)) ∧
    ((runPart galleryAB initState [PartEvent.evTrigger 0 "A" 500, PartEvent.evFire 400,
        PartEvent.evTrigger 450 "B" 500]).listModel = EmptyModel) ∧
    ((runPart galleryAB initState [PartEvent.evTrigger 0 "A" 500, PartEvent.evFire 400,
        PartEvent.evTrigger 450 "B" 500])._highlight = none) :=
  C5_amended_superseded_search galleryAB initState 0 400 450 500 500 "A" "B" (by decide)

/-- C5 counterexample: search "A" is triggered at 0; its debounced action
starts at 500 (gallery query in flight); search "B" is triggered at 600,
before A's backend promise resolves; when A's query then resolves, A's result
does become the list model after B was triggered — the mapped result of query
"A" (a non-empty first page), not the empty model, while B is still pending:
a stale entry renders after a newer search started. -/
theorem C5_counterexample :
    ((runPart galleryAB initState
      [PartEvent.evTrigger 0 "A" 500, PartEvent.evFire 500,
       PartEvent.evTrigger 600 "B" 500, PartEvent.evResolveQuery "A"]).listModel.firstPage
      = [doSearchEntry extA]) ∧
    ([doSearchEntry extA] ≠ (EmptyModel.firstPage : List IExtensionEntry)) ∧
    ((runPart galleryAB initState
      [PartEvent.evTrigger 0 "A" 500, PartEvent.evFire 500,
       PartEvent.evTrigger 600 "B" 500, PartEvent.evResolveQuery "A"]).debouncerPending
      = some ("B", 1100)) := by
  refine ⟨by decide, by decide, by decide⟩

/-- C7 (the claim fails on the code): dispose() writes the _highlight field
directly instead of going through the setter, so with a highlight active at
disposal time the teardown never runs: the transitionend listener (1) stays
registered, the container stays in the overlay, the stored teardown closure
survives, and neither the pending debounced search nor the pending content
fetch is cancelled; only the root click listener (0) is released. -/
theorem C7_dispose_leaks :
    ((disposePart { sExpanded with debouncerPending := some ("ed", 900) }).liveListeners
      = [1]) ∧
    ((disposePart { sExpanded with debouncerPending := some ("ed", 900) }).highlightDisposable
      = some { listenerId := 1, origParent := ElemId.listSlot 0, tid := 0 }) ∧
    ((lookupTemplate
        (disposePart { sExpanded with debouncerPending := some ("ed", 900) }).templates 0).map
        TemplateState.parent = some ElemId.overlayElem) ∧
    ((disposePart { sExpanded with debouncerPending := some ("ed", 900) }).debouncerPending
      = some ("ed", 900)) ∧
    ((disposePart { sExpanded with debouncerPending := some ("ed", 900) }).pendingFetches
      = [{ tid := 0, readmeUrl := sampleVersion.readmeUrl,
           downloadHeaders := sampleVersion.downloadHeaders }]) ∧
    ((disposePart { sExpanded with debouncerPending := some ("ed", 900) })._highlight
      = none) := by
  refine ⟨by decide, by decide, by decide, by decide, by decide, by decide⟩
